import Mathlib

/-!
Verification of the subject-aware crop-parameter engine of
`src/video_processor.py` (class `VideoProcessor`).

Embedding conventions:

* Python ints are `ℤ` (subject coordinates, which detections may place
  slightly outside the frame) or `ℕ` (frame dimensions, which ffprobe
  reports as positive integers).
* The Python floats `9/16 = 0.5625`, `width / height`, and the tolerance
  `0.01` are embedded as exact rationals.  `0.5625` is a dyadic rational,
  exactly representable in IEEE 754 double precision, and
  `int(height * 0.5625)` / `int(width / 0.5625)` agree with the exact
  rational floors `9*h/16` and `16*w/9` for every dimension below `2^49`,
  far beyond any video dimension, so the rational embedding is faithful.
* Python `int(x)` truncates toward zero: `pyInt` on `ℚ`, `Int.tdiv` for
  the truncated quotients `int(sum/len)` (exact because the sums involved
  stay far below `2^53`).
* A Python dict with optional keys becomes a structure with `Option`
  fields: `pad_height` and `operation` are `none` exactly on the branches
  whose dict literal omits those keys.
* A detector whose underlying model may raise is an `Except Unit` value:
  `Except.error ()` is "the call raised", `Except.ok` carries the
  detections (possibly empty / `none`).  Frame decoding
  (`cap.read`) at a sampled index is an `Option`-valued oracle.
-/

/-- The `operation` tag of a crop plan (`src/video_processor.py`,
`calculate_crop_parameters`): the three values the code ever stores. -/
inductive Operation where
  | crop_width : Operation
  | crop_height : Operation
  | add_padding : Operation
  deriving DecidableEq

/-- The dict returned by `calculate_crop_parameters`.  Field order:
`needs_crop`, `crop_x`, `crop_y`, `crop_width`, `crop_height`,
`pad_height` (present only on the padding branch), `operation`
(absent on the already-correct-ratio branch). -/
structure CropParams where
  needs_crop : Bool
  crop_x : ℤ
  crop_y : ℤ
  crop_width : ℤ
  crop_height : ℤ
  pad_height : Option ℤ
  operation : Option Operation
  deriving DecidableEq

/-- Python `int(q)` for a real (here: rational) `q`: truncation toward
zero. -/
def pyInt (q : ℚ) : ℤ :=
  if 0 ≤ q then ⌊q⌋ else ⌈q⌉

/-- The average used both in `detect_subjects` and in
`analyze_video_for_cropping`: `int(sum(xs)/len(xs))`, i.e. the truncated
mean of the coordinates (exact in double precision for pixel-sized
values). -/
def meanPoint (l : List (ℤ × ℤ)) : ℤ × ℤ :=
  (Int.tdiv (l.map Prod.fst).sum l.length, Int.tdiv (l.map Prod.snd).sum l.length)

/-- `calculate_crop_parameters(video_info, subject_center)`
(`src/video_processor.py` lines 114-178), with
`target_ratio = 9/16`, `current_ratio = width / height`,
`int(height * target_ratio) = 9*height/16` and
`int(width / target_ratio) = 16*width/9` (floor division on `ℕ`). -/
def calculate_crop_parameters (width height : ℕ) (subject_x subject_y : ℤ) : CropParams :=
  if |(width : ℚ) / (height : ℚ) - 9/16| < 1/100 then
    ⟨false, 0, 0, (width : ℤ), (height : ℤ), none, none⟩
  else if 9/16 < (width : ℚ) / (height : ℚ) then
    ⟨true,
     max 0 (min (subject_x - ((9 * height / 16 / 2 : ℕ) : ℤ))
                ((width : ℤ) - ((9 * height / 16 : ℕ) : ℤ))),
     0,
     ((9 * height / 16 : ℕ) : ℤ), (height : ℤ), none, some Operation.crop_width⟩
  else if (16 * width / 9 : ℕ) ≤ height then
    ⟨true, 0,
     max 0 (min (subject_y - ((16 * width / 9 / 2 : ℕ) : ℤ))
                ((height : ℤ) - ((16 * width / 9 : ℕ) : ℤ))),
     (width : ℤ), ((16 * width / 9 : ℕ) : ℤ), none, some Operation.crop_height⟩
  else
    ⟨true, 0, 0, (width : ℤ), (height : ℤ),
     some (((16 * width / 9 : ℕ) : ℤ) - (height : ℤ)), some Operation.add_padding⟩

/-- Output dimensions produced by executing a plan: the crop rectangle
for crop operations, `width x (height + pad_height)` for padding
(`process_video` computes `total_height = crop_height + pad_height`). -/
def outputDims (p : CropParams) : ℤ × ℤ :=
  match p.operation with
  | some Operation.add_padding => (p.crop_width, p.crop_height + p.pad_height.getD 0)
  | _ => (p.crop_width, p.crop_height)

/-- The dict access `crop_params['operation']` performed unconditionally
by `process_video` (line 262): raises `KeyError` (modelled as
`Except.error ()`) when the key is absent. -/
def getOperation (p : CropParams) : Except Unit Operation :=
  match p.operation with
  | none => Except.error ()
  | some o => Except.ok o

/-- The frame indices sampled by `analyze_video_for_cropping`
(lines 207-213): `sample_frames = min(5, total_frames)` and
`frame_num = int((i / sample_frames) * total_frames)`, whose exact value
is `i * total / sample_frames` (floor division; the double-precision
computation agrees for every frame count below `2^40`). -/
def sampleIndices (total : ℕ) : List ℕ :=
  (List.range (min 5 total)).map (fun i => i * total / min 5 total)

/-- A face detection's normalized relative bounding box
(`detection.location_data.relative_bounding_box`). -/
structure FaceBox where
  xmin : ℚ
  ymin : ℚ
  width : ℚ
  height : ℚ
  deriving DecidableEq

/-- The four torso landmarks `detect_subjects` reads from a pose result
(left/right shoulder, left/right hip), in normalized coordinates. -/
structure PoseLandmarks where
  left_shoulder : ℚ × ℚ
  right_shoulder : ℚ × ℚ
  left_hip : ℚ × ℚ
  right_hip : ℚ × ℚ
  deriving DecidableEq

/-- Pixel center of one face detection (lines 80-81):
`(int((xmin + width/2) * W), int((ymin + height/2) * H))`. -/
def faceCenter (W H : ℕ) (b : FaceBox) : ℤ × ℤ :=
  (pyInt ((b.xmin + b.width / 2) * W), pyInt ((b.ymin + b.height / 2) * H))

/-- Pixel torso center of one pose detection (lines 99-100): mean of the
four landmark positions, scaled to pixels and truncated. -/
def torsoCenter (W H : ℕ) (p : PoseLandmarks) : ℤ × ℤ :=
  (pyInt (((p.left_shoulder.1 + p.right_shoulder.1 + p.left_hip.1 + p.right_hip.1) / 4) * W),
   pyInt (((p.left_shoulder.2 + p.right_shoulder.2 + p.left_hip.2 + p.right_hip.2) / 4) * H))

/-- Points the face detector contributes to `subjects` (lines 75-84):
a raised exception (`Except.error`) is caught and contributes nothing,
exactly like an empty detection list. -/
def faceSubjects (W H : ℕ) : Except Unit (List FaceBox) → List (ℤ × ℤ)
  | Except.error _ => []
  | Except.ok bs => bs.map (faceCenter W H)

/-- Points the pose detector contributes to `subjects` (lines 87-103):
a raised exception is caught and contributes nothing, exactly like a
`None` landmark result. -/
def poseSubjects (W H : ℕ) : Except Unit (Option PoseLandmarks) → List (ℤ × ℤ)
  | Except.error _ => []
  | Except.ok none => []
  | Except.ok (some p) => [torsoCenter W H p]

/-- `detect_subjects(frame)` (lines 66-112) on a frame of dimensions
`W x H`: the unweighted truncated mean of all contributed points, or the
geometric center `(W//2, H//2)` when there are none. -/
def detect_subjects (W H : ℕ) (face : Except Unit (List FaceBox))
    (pose : Except Unit (Option PoseLandmarks)) : ℤ × ℤ :=
  if faceSubjects W H face ++ poseSubjects W H pose = [] then
    (((W / 2 : ℕ) : ℤ), ((H / 2 : ℕ) : ℤ))
  else
    meanPoint (faceSubjects W H face ++ poseSubjects W H pose)

/-- The temporal-aggregation loop of `analyze_video_for_cropping`
(lines 207-231): decode each sampled index (`decode i = none` models a
failed `cap.read`), collect the per-frame subject centers of the
successful decodes in order, and either average them
(`(int(avg_x), int(avg_y))`) or fall back to the metadata-derived
geometric center `(width//2, height//2)` when no frame decoded. -/
def aggregate_subject_center (total : ℕ) (decode : ℕ → Option (ℤ × ℤ))
    (width height : ℕ) : ℤ × ℤ :=
  if (sampleIndices total).filterMap decode = [] then
    (((width / 2 : ℕ) : ℤ), ((height / 2 : ℕ) : ℤ))
  else
    meanPoint ((sampleIndices total).filterMap decode)

/-! ### Branch characterisations of `calculate_crop_parameters` -/

/-- On the within-tolerance branch (lines 123-131) the function returns a
plan with no `operation` and no `pad_height` key. -/
lemma plan_none_eq (w h : ℕ) (sx sy : ℤ)
    (ht : |(w : ℚ) / (h : ℚ) - 9/16| < 1/100) :
    calculate_crop_parameters w h sx sy = ⟨false, 0, 0, (w : ℤ), (h : ℤ), none, none⟩ := by
  unfold calculate_crop_parameters
  rw [if_pos ht]

/-- On the too-wide branch (lines 133-148) the function returns the
subject-clamped width crop. -/
lemma plan_wide_eq (w h : ℕ) (sx sy : ℤ)
    (ht : ¬ |(w : ℚ) / (h : ℚ) - 9/16| < 1/100)
    (hg : 9/16 < (w : ℚ) / (h : ℚ)) :
    calculate_crop_parameters w h sx sy =
      ⟨true,
       max 0 (min (sx - ((9 * h / 16 / 2 : ℕ) : ℤ)) ((w : ℤ) - ((9 * h / 16 : ℕ) : ℤ))),
       0, ((9 * h / 16 : ℕ) : ℤ), (h : ℤ), none, some Operation.crop_width⟩ := by
  unfold calculate_crop_parameters
  rw [if_neg ht, if_pos hg]

/-- On the too-narrow branch with `target_height <= height`
(lines 153-165) the function returns the subject-clamped height crop. -/
lemma plan_tallcrop_eq (w h : ℕ) (sx sy : ℤ)
    (ht : ¬ |(w : ℚ) / (h : ℚ) - 9/16| < 1/100)
    (hg : ¬ 9/16 < (w : ℚ) / (h : ℚ))
    (hle : (16 * w / 9 : ℕ) ≤ h) :
    calculate_crop_parameters w h sx sy =
      ⟨true, 0,
       max 0 (min (sy - ((16 * w / 9 / 2 : ℕ) : ℤ)) ((h : ℤ) - ((16 * w / 9 : ℕ) : ℤ))),
       (w : ℤ), ((16 * w / 9 : ℕ) : ℤ), none, some Operation.crop_height⟩ := by
  unfold calculate_crop_parameters
  rw [if_neg ht, if_neg hg, if_pos hle]

/-- On the padding branch (lines 166-178) the function returns the full
frame plus `pad_height = target_height - height`. -/
lemma plan_pad_eq (w h : ℕ) (sx sy : ℤ)
    (ht : ¬ |(w : ℚ) / (h : ℚ) - 9/16| < 1/100)
    (hg : ¬ 9/16 < (w : ℚ) / (h : ℚ))
    (hgt : ¬ (16 * w / 9 : ℕ) ≤ h) :
    calculate_crop_parameters w h sx sy =
      ⟨true, 0, 0, (w : ℤ), (h : ℤ),
       some (((16 * w / 9 : ℕ) : ℤ) - (h : ℤ)), some Operation.add_padding⟩ := by
  unfold calculate_crop_parameters
  rw [if_neg ht, if_neg hg, if_neg hgt]

/-! ### Arithmetic helper lemmas -/

lemma not_tol_of_wide {r : ℚ} (hr : 9/16 + 1/100 ≤ r) : ¬ |r - 9/16| < 1/100 := by
  intro hc
  rw [abs_lt] at hc
  linarith [hc.2]

lemma not_tol_of_narrow {r : ℚ} (hr : r ≤ 9/16 - 1/100) : ¬ |r - 9/16| < 1/100 := by
  intro hc
  rw [abs_lt] at hc
  linarith [hc.1]

lemma narrow_of_not_tol {r : ℚ} (ht : ¬ |r - 9/16| < 1/100) (hg : ¬ 9/16 < r) :
    r ≤ 9/16 - 1/100 := by
  push_neg at hg
  rw [abs_lt] at ht
  push_neg at ht
  by_cases hx : -(1/100 : ℚ) < r - 9/16
  · have := ht hx
    linarith
  · push_neg at hx
    linarith

lemma ratio_gt_iff (w h : ℕ) (h0 : 0 < h) :
    9/16 < (w : ℚ) / (h : ℚ) ↔ 9 * h < 16 * w := by
  have hq : (0 : ℚ) < h := by exact_mod_cast h0
  rw [lt_div_iff hq]
  constructor
  · intro H
    have : (9 : ℚ) * h < 16 * w := by linarith
    exact_mod_cast this
  · intro H
    have : (9 : ℚ) * h < 16 * w := by exact_mod_cast H
    linarith

lemma ratio_lt_iff (w h : ℕ) (h0 : 0 < h) :
    (w : ℚ) / (h : ℚ) < 9/16 ↔ 16 * w < 9 * h := by
  have hq : (0 : ℚ) < h := by exact_mod_cast h0
  rw [div_lt_iff hq]
  constructor
  · intro H
    have : (16 : ℚ) * w < 9 * h := by linarith
    exact_mod_cast this
  · intro H
    have : (16 : ℚ) * w < 9 * h := by exact_mod_cast H
    linarith

/-- When the source is strictly wider than 9:16, the width crop target
`int(height * 0.5625)` fits inside the source width. -/
lemma crop_width_le (w h : ℕ) (h0 : 0 < h) (hg : 9/16 < (w : ℚ) / (h : ℚ)) :
    9 * h / 16 ≤ w := by
  have := (ratio_gt_iff w h h0).1 hg
  omega

/-- When the source is strictly narrower than 9:16, the height crop
target `int(width / 0.5625)` never exceeds the source height — the
`add_padding` branch of `calculate_crop_parameters` is unreachable. -/
lemma pad_unreachable (w h : ℕ) (h0 : 0 < h) (hr : (w : ℚ) / (h : ℚ) < 9/16) :
    16 * w / 9 ≤ h := by
  have := (ratio_lt_iff w h h0).1 hr
  omega

/-- The width crop output `(9*h/16) x h` is within the 0.01 tolerance of
9:16 whenever `h ≥ 94` (tight up to the worst-case remainder 15/16). -/
lemma tol_of_wide_result (h : ℕ) (hh : 94 ≤ h) :
    |((9 * h / 16 : ℕ) : ℚ) / (h : ℚ) - 9/16| < 1/100 := by
  have h0 : 0 < h := by omega
  have hq : (0 : ℚ) < h := by exact_mod_cast h0
  have k1 : 16 * (9 * h / 16) ≤ 9 * h := by omega
  have k2 : 9 * h ≤ 16 * (9 * h / 16) + 15 := by omega
  have q1 : (16 : ℚ) * ((9 * h / 16 : ℕ) : ℚ) ≤ 9 * h := by exact_mod_cast k1
  have q2 : (9 : ℚ) * h ≤ 16 * ((9 * h / 16 : ℕ) : ℚ) + 15 := by exact_mod_cast k2
  have hh' : (94 : ℚ) ≤ h := by exact_mod_cast hh
  rw [abs_lt]
  constructor
  · have h2 : (9/16 - 1/100 : ℚ) < ((9 * h / 16 : ℕ) : ℚ) / h := by
      rw [lt_div_iff hq]
      linarith
    linarith
  · have h2 : ((9 * h / 16 : ℕ) : ℚ) / h ≤ 9/16 := by
      rw [div_le_iff hq]
      linarith
    linarith

/-- The height crop output `w x (16*w/9)` is within the 0.01 tolerance
of 9:16 whenever `w ≥ 29` (which forces `16*w/9 ≥ 51`). -/
lemma tol_of_tall_result (w : ℕ) (hw : 29 ≤ w) :
    |(w : ℚ) / ((16 * w / 9 : ℕ) : ℚ) - 9/16| < 1/100 := by
  have kt : 51 ≤ 16 * w / 9 := by omega
  have hq : (0 : ℚ) < ((16 * w / 9 : ℕ) : ℚ) := by
    have : 0 < 16 * w / 9 := by omega
    exact_mod_cast this
  have k1 : 9 * (16 * w / 9) ≤ 16 * w := by omega
  have k2 : 16 * w ≤ 9 * (16 * w / 9) + 8 := by omega
  have q1 : (9 : ℚ) * ((16 * w / 9 : ℕ) : ℚ) ≤ 16 * w := by exact_mod_cast k1
  have q2 : (16 : ℚ) * w ≤ 9 * ((16 * w / 9 : ℕ) : ℚ) + 8 := by exact_mod_cast k2
  have qt : (51 : ℚ) ≤ ((16 * w / 9 : ℕ) : ℚ) := by exact_mod_cast kt
  rw [abs_lt]
  constructor
  · have h2 : (9/16 : ℚ) ≤ (w : ℚ) / ((16 * w / 9 : ℕ) : ℚ) := by
      rw [le_div_iff hq]
      linarith
    linarith
  · have h2 : (w : ℚ) / ((16 * w / 9 : ℕ) : ℚ) < 9/16 + 1/100 := by
      rw [div_lt_iff hq]
      linarith
    linarith

/-! ### Claim theorems -/

/-- C5: for every metadata whose aspect ratio is within 0.01 of 9:16 and
for every subject center, `calculate_crop_parameters` returns the
no-processing plan (no `operation` key, `needs_crop = false`, full
frame); the subject center has no influence on this result. -/
theorem tolerance_plan_none (w h : ℕ) (sx sy : ℤ) (h0 : 0 < h)
    (ht : |(w : ℚ) / (h : ℚ) - 9/16| < 1/100) :
    calculate_crop_parameters w h sx sy = ⟨false, 0, 0, (w : ℤ), (h : ℤ), none, none⟩ :=
  plan_none_eq w h sx sy ht

/-- Witness for C5: a 1080x1920 source (exactly 9:16) with an arbitrary
subject center yields the no-processing plan. -/
theorem tolerance_plan_none_witness :
    calculate_crop_parameters 1080 1920 7 9 = ⟨false, 0, 0, 1080, 1920, none, none⟩ := by
  have h := tolerance_plan_none 1080 1920 7 9 (by norm_num)
    (by rw [abs_lt]; constructor <;> norm_num)
  simpa using h

/-- C2 (amended): for every metadata with `w/h ≥ 9/16 + 0.01` (too wide
and outside the no-op tolerance band) and every subject center, the plan
is a `crop_width` plan whose rectangle satisfies `0 ≤ crop_x`,
`crop_x + crop_width ≤ w`, `crop_height = h`, `crop_y = 0`, and
`crop_width = floor(h * 9/16)`. -/
theorem crop_width_plan_bounds (w h : ℕ) (sx sy : ℤ) (h0 : 0 < h)
    (hr : (9 : ℚ)/16 + 1/100 ≤ (w : ℚ) / (h : ℚ)) :
    (calculate_crop_parameters w h sx sy).operation = some Operation.crop_width ∧
    0 ≤ (calculate_crop_parameters w h sx sy).crop_x ∧
    (calculate_crop_parameters w h sx sy).crop_x +
      (calculate_crop_parameters w h sx sy).crop_width ≤ (w : ℤ) ∧
    (calculate_crop_parameters w h sx sy).crop_height = (h : ℤ) ∧
    (calculate_crop_parameters w h sx sy).crop_y = 0 ∧
    (calculate_crop_parameters w h sx sy).crop_width = ((9 * h / 16 : ℕ) : ℤ) := by
  have ht := not_tol_of_wide hr
  have hg : 9/16 < (w : ℚ) / (h : ℚ) := lt_of_lt_of_le (by norm_num) hr
  rw [plan_wide_eq w h sx sy ht hg]
  have htw : 9 * h / 16 ≤ w := crop_width_le w h h0 hg
  have htw' : ((9 * h / 16 : ℕ) : ℤ) ≤ (w : ℤ) := by exact_mod_cast htw
  refine ⟨rfl, le_max_left 0 _, ?_, rfl, rfl, rfl⟩
  have hb : (0 : ℤ) ≤ (w : ℤ) - ((9 * h / 16 : ℕ) : ℤ) := by linarith
  have hx : max 0 (min (sx - ((9 * h / 16 / 2 : ℕ) : ℤ)) ((w : ℤ) - ((9 * h / 16 : ℕ) : ℤ))) ≤
      (w : ℤ) - ((9 * h / 16 : ℕ) : ℤ) :=
    max_le hb (min_le_right _ _)
  linarith

/-- Witness for C2: the 1920x1080 source of spec scenario 1 with subject
x = 960 satisfies every bound of the amended claim. -/
theorem crop_width_plan_bounds_witness :
    (calculate_crop_parameters 1920 1080 960 540).operation = some Operation.crop_width ∧
    0 ≤ (calculate_crop_parameters 1920 1080 960 540).crop_x ∧
    (calculate_crop_parameters 1920 1080 960 540).crop_x +
      (calculate_crop_parameters 1920 1080 960 540).crop_width ≤ (1920 : ℤ) ∧
    (calculate_crop_parameters 1920 1080 960 540).crop_height = (1080 : ℤ) ∧
    (calculate_crop_parameters 1920 1080 960 540).crop_y = 0 ∧
    (calculate_crop_parameters 1920 1080 960 540).crop_width = ((9 * 1080 / 16 : ℕ) : ℤ) := by
  have h := crop_width_plan_bounds 1920 1080 960 540 (by norm_num) (by norm_num)
  simpa using h

/-- Counterexample for C2 as frozen: the metadata 113x200 has
`w/h = 0.565 > 9/16` yet falls inside the 0.01 tolerance band, so the
code returns the no-operation plan instead of a `crop_width` plan. -/
theorem crop_width_plan_bounds_counterexample :
    (9 : ℚ)/16 < (113 : ℚ) / (200 : ℚ) ∧
    (calculate_crop_parameters 113 200 56 100).operation = none := by
  constructor
  · norm_num
  · rw [plan_none_eq 113 200 56 100 (by rw [abs_lt]; constructor <;> norm_num)]

/-- C3 (amended): for every metadata with `w/h ≤ 9/16 - 0.01` (too
narrow and outside the no-op tolerance band) with
`floor(w*16/9) ≤ h`, and every subject center, the plan is a
`crop_height` plan with `crop_x = 0`, `crop_width = w`,
`crop_height = floor(w*16/9)`, and `crop_y` clamped into
`[0, h - crop_height]`. -/
theorem crop_height_plan_bounds (w h : ℕ) (sx sy : ℤ) (h0 : 0 < h)
    (hr : (w : ℚ) / (h : ℚ) ≤ 9/16 - 1/100)
    (hth : (16 * w / 9 : ℕ) ≤ h) :
    (calculate_crop_parameters w h sx sy).operation = some Operation.crop_height ∧
    (calculate_crop_parameters w h sx sy).crop_x = 0 ∧
    (calculate_crop_parameters w h sx sy).crop_width = (w : ℤ) ∧
    (calculate_crop_parameters w h sx sy).crop_height = ((16 * w / 9 : ℕ) : ℤ) ∧
    0 ≤ (calculate_crop_parameters w h sx sy).crop_y ∧
    (calculate_crop_parameters w h sx sy).crop_y +
      (calculate_crop_parameters w h sx sy).crop_height ≤ (h : ℤ) := by
  have ht := not_tol_of_narrow hr
  have hg : ¬ 9/16 < (w : ℚ) / (h : ℚ) := not_lt.mpr (le_trans hr (by norm_num))
  rw [plan_tallcrop_eq w h sx sy ht hg hth]
  have hth' : ((16 * w / 9 : ℕ) : ℤ) ≤ (h : ℤ) := by exact_mod_cast hth
  refine ⟨rfl, rfl, rfl, rfl, le_max_left 0 _, ?_⟩
  have hb : (0 : ℤ) ≤ (h : ℤ) - ((16 * w / 9 : ℕ) : ℤ) := by linarith
  have hy : max 0 (min (sy - ((16 * w / 9 / 2 : ℕ) : ℤ)) ((h : ℤ) - ((16 * w / 9 : ℕ) : ℤ))) ≤
      (h : ℤ) - ((16 * w / 9 : ℕ) : ℤ) :=
    max_le hb (min_le_right _ _)
  linarith

/-- Witness for C3: a 500x1000 source with subject y = 500 satisfies
every bound of the amended claim. -/
theorem crop_height_plan_bounds_witness :
    (calculate_crop_parameters 500 1000 250 500).operation = some Operation.crop_height ∧
    (calculate_crop_parameters 500 1000 250 500).crop_x = 0 ∧
    (calculate_crop_parameters 500 1000 250 500).crop_width = (500 : ℤ) ∧
    (calculate_crop_parameters 500 1000 250 500).crop_height = ((16 * 500 / 9 : ℕ) : ℤ) ∧
    0 ≤ (calculate_crop_parameters 500 1000 250 500).crop_y ∧
    (calculate_crop_parameters 500 1000 250 500).crop_y +
      (calculate_crop_parameters 500 1000 250 500).crop_height ≤ (1000 : ℤ) := by
  have h := crop_height_plan_bounds 500 1000 250 500 (by norm_num) (by norm_num) (by norm_num)
  simpa using h

/-- Counterexample for C3 as frozen: the metadata 112x200 has
`w/h = 0.56 < 9/16` and `floor(112*16/9) = 199 ≤ 200`, yet falls inside
the 0.01 tolerance band, so the code returns the no-operation plan
instead of a `crop_height` plan. -/
theorem crop_height_plan_bounds_counterexample :
    (112 : ℚ) / (200 : ℚ) < (9 : ℚ)/16 ∧
    (16 * 112 / 9 : ℕ) ≤ 200 ∧
    (calculate_crop_parameters 112 200 56 100).operation = none := by
  refine ⟨by norm_num, by norm_num, ?_⟩
  rw [plan_none_eq 112 200 56 100 (by rw [abs_lt]; constructor <;> norm_num)]

/-- C10: within the tolerance band the returned dict carries no
`operation` key at all, only `needs_crop = False` with the full-frame
rectangle, so the unconditional `crop_params['operation']` access of
`process_video` raises `KeyError` on it (modelled by `getOperation`
returning `Except.error`); every plan produced outside the tolerance has
`needs_crop = True` and an `operation` among `crop_width`,
`crop_height`, `add_padding`. -/
theorem noop_plan_missing_operation_key (w h : ℕ) (sx sy : ℤ) :
    (|(w : ℚ) / (h : ℚ) - 9/16| < 1/100 →
      calculate_crop_parameters w h sx sy = ⟨false, 0, 0, (w : ℤ), (h : ℤ), none, none⟩ ∧
      getOperation (calculate_crop_parameters w h sx sy) = Except.error ()) ∧
    (¬ |(w : ℚ) / (h : ℚ) - 9/16| < 1/100 →
      (calculate_crop_parameters w h sx sy).needs_crop = true ∧
      ∃ o, (calculate_crop_parameters w h sx sy).operation = some o ∧
        (o = Operation.crop_width ∨ o = Operation.crop_height ∨ o = Operation.add_padding)) := by
  constructor
  · intro ht
    have he := plan_none_eq w h sx sy ht
    refine ⟨he, ?_⟩
    rw [he]
    rfl
  · intro ht
    by_cases hg : 9/16 < (w : ℚ) / (h : ℚ)
    · rw [plan_wide_eq w h sx sy ht hg]
      exact ⟨rfl, Operation.crop_width, rfl, Or.inl rfl⟩
    · by_cases hle : (16 * w / 9 : ℕ) ≤ h
      · rw [plan_tallcrop_eq w h sx sy ht hg hle]
        exact ⟨rfl, Operation.crop_height, rfl, Or.inr (Or.inl rfl)⟩
      · rw [plan_pad_eq w h sx sy ht hg hle]
        exact ⟨rfl, Operation.add_padding, rfl, Or.inr (Or.inr rfl)⟩

/-- Witness for C10: the in-tolerance source 1080x1920 gets a plan whose
`operation` access fails, and the out-of-tolerance source 1920x1080 gets
`needs_crop = true` with an `operation` value. -/
theorem noop_plan_missing_operation_key_witness :
    (calculate_crop_parameters 1080 1920 3 4 = ⟨false, 0, 0, 1080, 1920, none, none⟩ ∧
     getOperation (calculate_crop_parameters 1080 1920 3 4) = Except.error ()) ∧
    ((calculate_crop_parameters 1920 1080 3 4).needs_crop = true ∧
     ∃ o, (calculate_crop_parameters 1920 1080 3 4).operation = some o ∧
       (o = Operation.crop_width ∨ o = Operation.crop_height ∨ o = Operation.add_padding)) := by
  constructor
  · have h := (noop_plan_missing_operation_key 1080 1920 3 4).1
      (by rw [abs_lt]; constructor <;> norm_num)
    simpa using h
  · exact (noop_plan_missing_operation_key 1920 1080 3 4).2 (not_tol_of_wide (by norm_num))

/-- C4 (code bug): the guard `w/h < 9/16 ∧ floor(w*16/9) > h` the claim
quantifies over is unsatisfiable — whenever `w/h < 9/16` the computed
target height `floor(w*16/9)` already fits in `h`, so the `add_padding`
branch is dead code.  At the spec's own padding scenario (the square
1080x1080 source of scenario 2, expected to pad with
`pad_total = 840`), the code instead takes the `crop_width` branch and
crops to 607x1080. -/
theorem add_padding_guard_empty :
    ((calculate_crop_parameters 1080 1080 540 540).operation = some Operation.crop_width ∧
     (calculate_crop_parameters 1080 1080 540 540).crop_width = 607) ∧
    ∀ w h : ℕ, 0 < h → (w : ℚ) / (h : ℚ) < 9/16 → (16 * w / 9 : ℕ) ≤ h := by
  constructor
  · have hwide := plan_wide_eq 1080 1080 540 540 (not_tol_of_wide (by norm_num)) (by norm_num)
    constructor
    · rw [hwide]
    · rw [hwide]
      norm_num
  · exact fun w h h0 hr => pad_unreachable w h h0 hr

/-- Witness for C4's universal part: 1x2 is narrower than 9:16 and its
target height `floor(16/9) = 1` indeed fits inside the height 2. -/
theorem add_padding_guard_empty_witness : (16 * 1 / 9 : ℕ) ≤ 2 :=
  add_padding_guard_empty.2 1 2 (by norm_num) (by norm_num)

/-- C1 (amended): for every metadata with `w ≥ 29` and `h ≥ 94` and
every subject center, any plan whose `operation` key is present has
output dimensions (crop rectangle for crops, `w x (h + pad)` for
padding) whose ratio is within 0.01 of 9:16; equivalently, planning
again on those output dimensions yields a plan with no `operation`. -/
theorem plan_output_matches_target (w h : ℕ) (sx sy sx' sy' : ℤ)
    (hw : 29 ≤ w) (hh : 94 ≤ h) (op : Operation)
    (hop : (calculate_crop_parameters w h sx sy).operation = some op) :
    |((outputDims (calculate_crop_parameters w h sx sy)).1 : ℚ) /
       ((outputDims (calculate_crop_parameters w h sx sy)).2 : ℚ) - 9/16| < 1/100 ∧
    (calculate_crop_parameters (outputDims (calculate_crop_parameters w h sx sy)).1.toNat
       (outputDims (calculate_crop_parameters w h sx sy)).2.toNat sx' sy').operation = none := by
  have h0 : 0 < h := by omega
  by_cases ht : |(w : ℚ) / (h : ℚ) - 9/16| < 1/100
  · rw [plan_none_eq w h sx sy ht] at hop
    exact absurd hop (by simp)
  by_cases hg : 9/16 < (w : ℚ) / (h : ℚ)
  · rw [plan_wide_eq w h sx sy ht hg]
    have key := tol_of_wide_result h hh
    constructor
    · simp only [outputDims]
      push_cast at key ⊢
      exact key
    · simp only [outputDims, Int.toNat_natCast]
      rw [plan_none_eq (9 * h / 16) h sx' sy' key]
  · by_cases hle : (16 * w / 9 : ℕ) ≤ h
    · rw [plan_tallcrop_eq w h sx sy ht hg hle]
      have key := tol_of_tall_result w hw
      constructor
      · simp only [outputDims]
        push_cast at key ⊢
        exact key
      · simp only [outputDims, Int.toNat_natCast]
        rw [plan_none_eq w (16 * w / 9) sx' sy' key]
    · exfalso
      have hnar : (w : ℚ) / (h : ℚ) < 9/16 :=
        lt_of_le_of_lt (narrow_of_not_tol ht hg) (by norm_num)
      exact hle (pad_unreachable w h h0 hnar)

/-- Witness for C1: the 1920x1080 source crops to 607x1080, whose ratio
is within the tolerance, and re-planning on 607x1080 yields no
operation. -/
theorem plan_output_matches_target_witness :
    |((outputDims (calculate_crop_parameters 1920 1080 960 540)).1 : ℚ) /
       ((outputDims (calculate_crop_parameters 1920 1080 960 540)).2 : ℚ) - 9/16| < 1/100 ∧
    (calculate_crop_parameters (outputDims (calculate_crop_parameters 1920 1080 960 540)).1.toNat
       (outputDims (calculate_crop_parameters 1920 1080 960 540)).2.toNat 0 0).operation = none :=
  plan_output_matches_target 1920 1080 960 540 0 0 (by norm_num) (by norm_num)
    Operation.crop_width
    (by rw [plan_wide_eq 1920 1080 960 540 (not_tol_of_wide (by norm_num)) (by norm_num)])

/-- Counterexample for C1 as frozen: the 10x17 source (ratio 0.588,
outside the tolerance) is planned as a width crop to 9x17, but
`9/17 = 0.529` misses 9:16 by more than 0.01, and re-planning on 9x17
yields a `crop_height` operation, not `none`. -/
theorem plan_output_matches_target_counterexample :
    (calculate_crop_parameters 10 17 5 8).operation = some Operation.crop_width ∧
    outputDims (calculate_crop_parameters 10 17 5 8) = (9, 17) ∧
    ¬ |(9 : ℚ) / (17 : ℚ) - 9/16| < 1/100 ∧
    (calculate_crop_parameters 9 17 5 8).operation = some Operation.crop_height := by
  have hwide := plan_wide_eq 10 17 5 8 (not_tol_of_wide (by norm_num)) (by norm_num)
  refine ⟨by rw [hwide], ?_, not_tol_of_narrow (by norm_num), ?_⟩
  · rw [hwide]
    simp only [outputDims]
    norm_num
  · rw [plan_tallcrop_eq 9 17 5 8 (not_tol_of_narrow (by norm_num)) (by norm_num) (by norm_num)]

/-- C6: the sampler takes exactly `min 5 total` samples, the i-th at
index `floor(i / sample_count * total)` = `i * total / sample_count`,
and for a video with fewer than 5 frames it samples every frame index
`0 .. total-1` exactly once. -/
theorem sampling_schedule (total : ℕ) :
    (sampleIndices total).length = min 5 total ∧
    (∀ i, i < min 5 total → (sampleIndices total).getD i 0 = i * total / min 5 total) ∧
    (total < 5 → sampleIndices total = List.range total) := by
  refine ⟨by simp [sampleIndices], ?_, ?_⟩
  · intro i hi
    simp [sampleIndices, List.getD_eq_get?, List.get?_map, List.getElem?_range hi]
  · intro h5
    have hmin : min 5 total = total := by omega
    simp only [sampleIndices, hmin]
    rcases Nat.eq_zero_or_pos total with h0 | h0
    · subst h0
      rfl
    · have hfun : (fun i : ℕ => i * total / total) = fun i : ℕ => i :=
        funext fun i => Nat.mul_div_cancel i h0
      rw [hfun]
      exact List.map_id' (List.range total)

/-- Witness for C6: at `total = 3` the second sample is at index
`1 * 3 / 3 = 1` and the schedule is `[0, 1, 2]`, every frame once. -/
theorem sampling_schedule_witness :
    (sampleIndices 3).getD 1 0 = 1 * 3 / min 5 3 ∧ sampleIndices 3 = List.range 3 :=
  ⟨(sampling_schedule 3).2.1 1 (by norm_num), (sampling_schedule 3).2.2 (by norm_num)⟩

/-- C7: the temporal aggregator skips sampled indices whose decode
fails; if every sampled frame fails (including the zero-sample case) it
returns the metadata-derived geometric center `(w//2, h//2)` rather than
an error, and otherwise it returns the truncated mean of exactly the
successfully decoded frames' centers. -/
theorem aggregator_fallback_and_mean (total width height : ℕ)
    (decode : ℕ → Option (ℤ × ℤ)) :
    ((∀ i ∈ sampleIndices total, decode i = none) →
      aggregate_subject_center total decode width height =
        (((width / 2 : ℕ) : ℤ), ((height / 2 : ℕ) : ℤ))) ∧
    (∀ c cs, (sampleIndices total).filterMap decode = c :: cs →
      aggregate_subject_center total decode width height =
        (Int.tdiv (((c :: cs).map Prod.fst).sum) ((c :: cs).length),
         Int.tdiv (((c :: cs).map Prod.snd).sum) ((c :: cs).length))) := by
  constructor
  · intro hfail
    have hnil : (sampleIndices total).filterMap decode = [] := by
      rw [List.filterMap_eq_nil]
      exact hfail
    unfold aggregate_subject_center
    rw [if_pos hnil]
  · intro c cs hcons
    unfold aggregate_subject_center
    rw [hcons, if_neg (List.cons_ne_nil c cs)]
    rfl

/-- Witness for C7: with every decode failing on a 5-frame 640x480 video
the aggregator returns (320, 240); with every decode returning (10, 20)
on a 2-frame video it returns the mean (10, 20). -/
theorem aggregator_fallback_and_mean_witness :
    aggregate_subject_center 5 (fun _ => none) 640 480 = (320, 240) ∧
    aggregate_subject_center 2 (fun _ => some (10, 20)) 99 99 = (10, 20) := by
  constructor
  · have h := (aggregator_fallback_and_mean 5 640 480 (fun _ => none)).1
      (fun i _ => rfl)
    rw [h]
    decide
  · have h := (aggregator_fallback_and_mean 2 99 99 (fun _ => some (10, 20))).2
      (10, 20) [(10, 20)] (by decide)
    rw [h]
    decide

/-- C8: the subject locator is total; an exception raised inside the
face detector or the pose detector is absorbed and behaves exactly like
zero detections from that detector, and when both detectors fail the
locator still returns the frame's geometric center. -/
theorem locator_absorbs_detector_failures :
    (∀ (W H : ℕ) (pose : Except Unit (Option PoseLandmarks)),
      detect_subjects W H (Except.error ()) pose = detect_subjects W H (Except.ok []) pose) ∧
    (∀ (W H : ℕ) (face : Except Unit (List FaceBox)),
      detect_subjects W H face (Except.error ()) = detect_subjects W H face (Except.ok none)) ∧
    (∀ W H : ℕ, detect_subjects W H (Except.error ()) (Except.error ()) =
      (((W / 2 : ℕ) : ℤ), ((H / 2 : ℕ) : ℤ))) :=
  ⟨fun _ _ _ => rfl, fun _ _ _ => rfl, fun _ _ => rfl⟩

/-- C9: on a frame of dimensions `W x H`, the locator converts each face
detection's bounding-box center and each pose detection's torso point to
pixels and returns the truncated unweighted mean of all such points
across both detectors; with zero detections in total it returns exactly
the geometric center `(W//2, H//2)`. -/
theorem locator_reduction_formula (W H : ℕ) (faces : List FaceBox)
    (pose : Option PoseLandmarks) :
    (faces = [] → pose = none →
      detect_subjects W H (Except.ok faces) (Except.ok pose) =
        (((W / 2 : ℕ) : ℤ), ((H / 2 : ℕ) : ℤ))) ∧
    (∀ p ps,
      faces.map (faceCenter W H) ++ (Option.elim pose [] fun q => [torsoCenter W H q]) =
          p :: ps →
      detect_subjects W H (Except.ok faces) (Except.ok pose) =
        (Int.tdiv (((p :: ps).map Prod.fst).sum) ((p :: ps).length),
         Int.tdiv (((p :: ps).map Prod.snd).sum) ((p :: ps).length))) := by
  constructor
  · rintro rfl rfl
    rfl
  · intro p ps hp
    have hfp : faceSubjects W H (Except.ok faces) ++ poseSubjects W H (Except.ok pose) =
        p :: ps := by
      cases pose <;> simpa [faceSubjects, poseSubjects, Option.elim] using hp
    unfold detect_subjects
    rw [hfp, if_neg (List.cons_ne_nil p ps)]
    rfl

/-- Witness for C9: one face detection centered at normalized (0.5, 0.5)
on a 100x100 frame gives the pixel subject center (50, 50). -/
theorem locator_reduction_formula_witness :
    detect_subjects 100 100 (Except.ok [⟨1/4, 1/4, 1/2, 1/2⟩]) (Except.ok none) =
      ((50 : ℤ), (50 : ℤ)) := by
  have hp : ([⟨1/4, 1/4, 1/2, 1/2⟩] : List FaceBox).map (faceCenter 100 100) ++
      (Option.elim none [] fun q => [torsoCenter 100 100 q]) = [((50 : ℤ), (50 : ℤ))] := by
    simp [faceCenter, pyInt, Option.elim]
    norm_num
  have h := (locator_reduction_formula 100 100 [⟨1/4, 1/4, 1/2, 1/2⟩] none).2
    ((50 : ℤ), (50 : ℤ)) [] hp
  rw [h]
  decide
